import Mathlib

/-!
Verification of the `Audio` feature of `src/datasets/features/audio.py`.

The Python module defines a dataclass `Audio` with fields `sampling_rate`,
`mono`, `archived`, `id` and the methods `__call__` (storage schema),
`decode_example` (per-item decode dispatch), three private backend helpers
(`_decode_example_with_librosa`, `_decode_example_with_soundfile`,
`_decode_example_with_torchaudio`) and `decode_batch` (columnar
aggregation).

Shallow embedding conventions:
* sample values are rationals (`ℚ`); a numpy array is `Arr`, either 1-D
  (`oneD`) or 2-D (`twoD`, a list of rows);
* the external libraries (librosa, soundfile, torchaudio, sox) are a
  `Backends` record: availability flags model importability, and the
  library calls (`librosa.load`, `sf.read`, `torchaudio.load`, the raw
  single-channel resampling kernel) are explicit function fields;
* raising an exception is returning `Except.error`; the `ImportError`
  messages of the source are the constructors `installLibrosa`,
  `installTorchaudio`, `installSox` of `AudioError` (the source messages
  are, verbatim: line 67/78 `To support decoding audio files, please
  install librosa.`, line 94 `To support decoding mp3 audio files, please
  install torchaudio.`, line 98 `To support decoding mp3 audio files,
  please install sox.` - the first two branches raise the SAME message
  text naming librosa);
* the `TypeError`/`AttributeError` that Python raises in `decode_example`
  when the shape of `value` does not match `self.archived` (indexing a
  `str` with `value["path"]`, or calling `.endswith` on a `dict`) is the
  constructor `malformedReference`;
* the lazily created `self._resampler` attribute (a
  `torchaudio.transforms.Resample(orig_freq, new_freq)` object) is modelled
  as explicit state of type `Option (ℕ × ℕ)` holding the `(orig_freq,
  new_freq)` pair the object was constructed with; applying the object
  applies the backend resampling kernel for that stored pair, row by row.
-/

deriving instance DecidableEq for Except

namespace DatasetsAudio

/-- Python `s.endswith(suffix)`: case-sensitive suffix test on the
character sequence. -/
def strEndsWith (s suffix : String) : Bool :=
  suffix.data.isSuffixOf s.data

/-- A 2-D numpy array in row-major shape: a list of rows. -/
abbrev Mat : Type := List (List ℚ)

/-- A numpy array as the audio code uses it: 1-D or 2-D. -/
inductive Arr : Type where
  | oneD (xs : List ℚ)
  | twoD (m : Mat)
deriving DecidableEq, Repr

/-- An audio file payload (`value["bytes"]`, wrapped in a byte buffer). -/
abbrev Bytes : Type := List ℕ

/-- Argument of `torchaudio.load`: a filesystem path or a byte buffer. -/
inductive PathOrBuffer : Type where
  | path (p : String)
  | buffer (b : Bytes)
deriving DecidableEq, Repr

/-- The stored reference passed to `decode_example`: either a bare path
(`archived=False`) or a dict with `path` and `bytes` (`archived=True`). -/
inductive StoredRef : Type where
  | pathOnly (p : String)
  | pathWithBytes (p : String) (b : Bytes)
deriving DecidableEq, Repr

/-- The exceptions the decode path can raise.  The first three are the
`ImportError`s of lines 67/78, 94 and 98 of the source (named by the library
the message instructs the user to install); `malformedReference` is the
`TypeError`/`AttributeError` raised when the shape of `value` does not match
`archived`. -/
inductive AudioError : Type where
  | installLibrosa
  | installTorchaudio
  | installSox
  | malformedReference
deriving DecidableEq, Repr

/-- The `Audio` dataclass configuration fields (line 25-28 of the source). -/
structure Audio : Type where
  sampling_rate : Option ℕ := none
  mono : Bool := true
  archived : Bool := false
  id : Option String := none
deriving DecidableEq, Repr

/-- The class attribute `dtype = "dict"` (line 30). -/
def Audio.dtype : String := "dict"

/-- The pyarrow type expressions `__call__` can build. -/
inductive PAType : Type where
  | string
  | binary
  | struct (fields : List (String × PAType))

/-- `Audio.__call__` (line 34-35): `pa.string() if not self.archived else
pa.struct({"path": pa.string(), "bytes": pa.binary()})`. -/
def Audio.call (self : Audio) : PAType :=
  if ¬self.archived then PAType.string
  else PAType.struct [("path", PAType.string), ("bytes", PAType.binary)]

/-- The external libraries, as capabilities.  Availability flags model
whether the `import` statements succeed; the function fields model the
library calls themselves (their behaviour is outside the repository). -/
structure Backends : Type where
  librosaAvailable : Bool
  soundfileAvailable : Bool
  torchaudioAvailable : Bool
  soxAvailable : Bool
  /-- `librosa.load(f, sr=…, mono=…)` on the file at a path: takes the
  target-rate hint and the mono flag, returns `(array, sampling_rate)`. -/
  librosaLoad : String → Option ℕ → Bool → Arr × ℕ
  /-- `soundfile.read(file)` on a byte buffer: `(array, sampling_rate)`,
  the array in channel-last (frames × channels) layout. -/
  sfRead : Bytes → Arr × ℕ
  /-- `torchaudio.load(value)`: `(array, sampling_rate)`, the array 2-D in
  channel-major (channels × frames) layout. -/
  torchLoad : PathOrBuffer → Mat × ℕ
  /-- The single-channel resampling kernel, a pure function of
  `(src_rate, dst_rate, samples)`; both `librosa.resample` and
  `torchaudio.transforms.Resample` apply it along the last axis. -/
  resample : ℕ → ℕ → List ℚ → List ℚ

/-- Sum a list of equal-length rows elementwise (numpy reduction along
axis 0, first step of `mean(axis=0)`). -/
def sumRows : Mat → List ℚ
  | [] => []
  | r :: rs => rs.foldl (fun a b => List.zipWith (· + ·) a b) r

/-- Column means of a 2-D array: numpy `array.mean(axis=0)`, the per-sample
average across channels of a channel-major array. -/
def colMeans (m : Mat) : List ℚ :=
  (sumRows m).map (fun x => x / (m.length : ℚ))

/-- numpy transpose of a rectangular 2-D array. -/
def transposeMat (m : Mat) : Mat :=
  match m with
  | [] => []
  | r :: _ => (List.range r.length).map (fun c => m.map (fun row => row.getD c 0))

/-- `array.T` (line 81): transpose; on a 1-D array numpy `.T` is the
identity. -/
def transposeArr : Arr → Arr
  | .oneD xs => .oneD xs
  | .twoD m => .twoD (transposeMat m)

/-- `librosa.to_mono(array)` (line 83): mean along axis 0 of a 2-D array,
identity on a 1-D array. -/
def toMono : Arr → Arr
  | .oneD xs => .oneD xs
  | .twoD m => .oneD (colMeans m)

/-- `librosa.resample(array, src, dst, res_type="kaiser_best")` (line 85):
the resampling kernel applied along the last axis. -/
def liftResample (rs : ℕ → ℕ → List ℚ → List ℚ) (src dst : ℕ) : Arr → Arr
  | .oneD xs => .oneD (rs src dst xs)
  | .twoD m => .twoD (m.map (rs src dst))

/-- `Audio._decode_example_with_librosa` (lines 63-71): after the import
check, `librosa.load(f, sr=self.sampling_rate, mono=self.mono)` does all
the work internally. -/
def decodeLibrosa (B : Backends) (self : Audio) (value : String) :
    Except AudioError (Arr × ℕ) :=
  if ¬B.librosaAvailable then .error .installLibrosa
  else .ok (B.librosaLoad value self.sampling_rate self.mono)

/-- `Audio._decode_example_with_soundfile` (lines 73-87): import librosa and
soundfile (one `except` clause, message naming librosa); `sf.read`;
transpose; optional `librosa.to_mono`; optional `librosa.resample`. -/
def decodeSoundfile (B : Backends) (self : Audio) (file : Bytes) :
    Except AudioError (Arr × ℕ) :=
  if ¬(B.librosaAvailable && B.soundfileAvailable) then .error .installLibrosa
  else
    let pair := B.sfRead file
    let sr := pair.2
    let a₁ := transposeArr pair.1
    let a₂ := if self.mono then toMono a₁ else a₁
    match self.sampling_rate with
    | some t =>
        if t ≠ 0 ∧ t ≠ sr then .ok (liftResample B.resample sr t a₂, t)
        else .ok (a₂, sr)
    | none => .ok (a₂, sr)

/-- The lazily cached `self._resampler` (lines 102-103): constructed as
`T.Resample(sampling_rate, self.sampling_rate)` only when the attribute is
absent, otherwise reused as is.  The state records the `(orig_freq,
new_freq)` pair of the stored object. -/
abbrev ResamplerState : Type := Option (ℕ × ℕ)

/-- Applying the `T.Resample` object constructed for the pair `k`: the
resampling kernel for `k`, along the last axis of the channel-major array. -/
def applyResampler (rs : ℕ → ℕ → List ℚ → List ℚ) (k : ℕ × ℕ) (m : Mat) : Mat :=
  m.map (rs k.1 k.2)

/-- `Audio._decode_example_with_torchaudio` (lines 89-109): import checks
for torchaudio (message naming torchaudio) and the sox backend (message
naming sox); `torchaudio.load`; optional resampling through the cached
`self._resampler`; `.numpy()`; optional `array.mean(axis=0)` mono downmix.
Returns the `(array, sampling_rate)` pair together with the updated
`_resampler` state. -/
def decodeTorchaudio (B : Backends) (self : Audio) (st : ResamplerState)
    (value : PathOrBuffer) : Except AudioError ((Arr × ℕ) × ResamplerState) :=
  if ¬B.torchaudioAvailable then .error .installTorchaudio
  else if ¬B.soxAvailable then .error .installSox
  else
    let pair := B.torchLoad value
    let sr := pair.2
    let step :
        Mat × ℕ × ResamplerState :=
      match self.sampling_rate with
      | some t =>
          if t ≠ 0 ∧ t ≠ sr then
            let k : ℕ × ℕ := match st with
              | none => (sr, t)
              | some k => k
            (applyResampler B.resample k pair.1, t, some k)
          else (pair.1, sr, st)
      | none => (pair.1, sr, st)
    let arr : Arr := if self.mono then .oneD (colMeans step.1) else .twoD step.1
    .ok ((arr, step.2.1), step.2.2)

/-- `Audio.decode_example` (lines 37-61).  When `archived` the value must be
a dict (a bare string raises `TypeError` at `value["path"]`); when not
`archived` it must be a bare string (a dict raises `AttributeError` at
`path.endswith`).  Paths ending in `.mp3` (case-sensitive) go to the
torchaudio helper in both storage modes; other archived values go to the
soundfile helper on the byte buffer, other plain paths to the librosa
helper.  Returns the decoded record and the updated `_resampler` state. -/
def decodeExample (B : Backends) (self : Audio) (st : ResamplerState)
    (value : StoredRef) :
    Except AudioError ((String × Arr × ℕ) × ResamplerState) :=
  match self.archived, value with
  | true, .pathWithBytes p bs =>
      if strEndsWith p ".mp3" then
        (decodeTorchaudio B self st (.buffer bs)).map
          (fun r => ((p, r.1.1, r.1.2), r.2))
      else
        (decodeSoundfile B self bs).map (fun r => ((p, r.1, r.2), st))
  | false, .pathOnly p =>
      if strEndsWith p ".mp3" then
        (decodeTorchaudio B self st (.path p)).map
          (fun r => ((p, r.1.1, r.1.2), r.2))
      else
        (decodeLibrosa B self p).map (fun r => ((p, r.1, r.2), st))
  | true, .pathOnly _ => .error .malformedReference
  | false, .pathWithBytes _ _ => .error .malformedReference

/-- A value of the per-item result dict `{"path": …, "array": …,
"sampling_rate": …}`. -/
inductive Value : Type where
  | str (s : String)
  | arr (a : Arr)
  | nat (n : ℕ)
deriving DecidableEq, Repr

/-- `decoded_batch[k].append(v)` on a `defaultdict(list)` kept in insertion
order: append to the entry of `k` if present, else create the key at the
end with a singleton list. -/
def appendKV : List (String × List Value) → String → Value →
    List (String × List Value)
  | [], k, v => [(k, [v])]
  | (k', vs) :: rest, k, v =>
      if k' = k then (k', vs ++ [v]) :: rest
      else (k', vs) :: appendKV rest k v

/-- The inner loop of `decode_batch` (lines 115-116): append the three
items of one decoded example, in the dict order `path`, `array`,
`sampling_rate`. -/
def appendItems (acc : List (String × List Value)) (d : String × Arr × ℕ) :
    List (String × List Value) :=
  appendKV (appendKV (appendKV acc "path" (.str d.1)) "array" (.arr d.2.1))
    "sampling_rate" (.nat d.2.2)

/-- The loop of `decode_batch` (lines 113-116), threading the accumulator
dict and the `_resampler` state; a raised exception aborts the loop. -/
def decodeBatchAux (B : Backends) (self : Audio) :
    ResamplerState → List (String × List Value) → List StoredRef →
    Except AudioError (List (String × List Value))
  | _, acc, [] => .ok acc
  | st, acc, v :: vs =>
      match decodeExample B self st v with
      | .error e => .error e
      | .ok (d, st') => decodeBatchAux B self st' (appendItems acc d) vs

/-- `Audio.decode_batch` (lines 111-117): fold the loop over the values,
starting from the empty dict. -/
def decodeBatch (B : Backends) (self : Audio) (st : ResamplerState)
    (values : List StoredRef) : Except AudioError (List (String × List Value)) :=
  decodeBatchAux B self st [] values

/-- Sequential per-item decoding with the `_resampler` state threaded from
call to call, collecting the per-item results in order: the calls
`decode_batch` makes, without the dict aggregation. -/
def decodeExamples (B : Backends) (self : Audio) :
    ResamplerState → List StoredRef →
    Except AudioError (List (String × Arr × ℕ) × ResamplerState)
  | st, [] => .ok ([], st)
  | st, v :: vs =>
      match decodeExample B self st v with
      | .error e => .error e
      | .ok (d, st') =>
          (decodeExamples B self st' vs).map (fun r => (d :: r.1, r.2))

/-- The post-dispatch processing of the soundfile branch (lines 82-87 of
the source, after the transpose): optional mono downmix, then optional
resampling.  `decodeSoundfile` is this pipeline applied to the transposed
`sf.read` output. -/
def sfPost (B : Backends) (self : Audio) (a : Arr) (sr : ℕ) :
    Except AudioError (Arr × ℕ) :=
  let a₂ := if self.mono then toMono a else a
  match self.sampling_rate with
  | some t =>
      if t ≠ 0 ∧ t ≠ sr then .ok (liftResample B.resample sr t a₂, t)
      else .ok (a₂, sr)
  | none => .ok (a₂, sr)

/-- The buffer branch as claim C3 describes it, with the mono downmix
applied AFTER the resampling step.  This definition follows the words of
the claim, not the source (the source applies the downmix before the
resampling in this branch); it exists to be compared with
`decodeSoundfile`. -/
def decodeSoundfileMonoAfterResample (B : Backends) (self : Audio)
    (file : Bytes) : Except AudioError (Arr × ℕ) :=
  if ¬(B.librosaAvailable && B.soundfileAvailable) then .error .installLibrosa
  else
    let pair := B.sfRead file
    let sr := pair.2
    let a₁ := transposeArr pair.1
    match self.sampling_rate with
    | some t =>
        if t ≠ 0 ∧ t ≠ sr then
          let a₂ := liftResample B.resample sr t a₁
          .ok ((if self.mono then toMono a₂ else a₂), t)
        else .ok ((if self.mono then toMono a₁ else a₁), sr)
    | none => .ok ((if self.mono then toMono a₁ else a₁), sr)

/-- A fully available backend record with inert library functions, for
concrete evaluations. -/
def stubBackends : Backends where
  librosaAvailable := true
  soundfileAvailable := true
  torchaudioAvailable := true
  soxAvailable := true
  librosaLoad := fun _ _ _ => (.oneD [], 1)
  sfRead := fun _ => (.oneD [], 1)
  torchLoad := fun _ => ([[1]], 44100)
  resample := fun _ _ xs => xs

/-- Backends whose mp3 loader reports native rate 44100 for the payload
`[1]` and 22050 for every other payload, and whose resampling kernel
returns the one-sample array holding the SOURCE rate it was invoked with -
a pure function of `(samples, src_rate, dst_rate)` that lets the output
show which converter was applied. -/
def cacheBackends : Backends where
  librosaAvailable := true
  soundfileAvailable := true
  torchaudioAvailable := true
  soxAvailable := true
  librosaLoad := fun _ _ _ => (.oneD [], 1)
  sfRead := fun _ => (.oneD [], 1)
  torchLoad := fun v =>
    match v with
    | .buffer (1 :: _) => ([[1]], 44100)
    | _ => ([[1]], 22050)
  resample := fun src _ _ => [(src : ℚ)]

/-- Backends whose buffer reader yields one frame of a 2-channel signal
`[[0, 2]]` at 44100 Hz, and whose resampling kernel squares every sample -
a pure function under which the mono downmix and the resampling step do
not commute. -/
def monoOrderBackends : Backends where
  librosaAvailable := true
  soundfileAvailable := true
  torchaudioAvailable := true
  soxAvailable := true
  librosaLoad := fun _ _ _ => (.oneD [], 1)
  sfRead := fun _ => (.twoD [[0, 2]], 44100)
  torchLoad := fun _ => ([[1]], 44100)
  resample := fun _ _ xs => xs.map (fun x => x * x)

/-! ### List-level helper lemmas for the elementwise mean and the
transpose -/

theorem zipWith_add_getD (a b : List ℚ) (t : ℕ) (ha : t < a.length)
    (hb : t < b.length) :
    (List.zipWith (· + ·) a b).getD t 0 = a.getD t 0 + b.getD t 0 := by
  induction a generalizing b t with
  | nil => simp at ha
  | cons x xs ih =>
    cases b with
    | nil => simp at hb
    | cons y ys =>
      cases t with
      | zero => simp
      | succ n =>
        simp only [List.zipWith_cons_cons, List.getD_cons_succ]
        exact ih ys n (Nat.lt_of_succ_lt_succ ha) (Nat.lt_of_succ_lt_succ hb)

theorem lt_length_foldl_zipWith (t : ℕ) (rs : List (List ℚ)) :
    ∀ r : List ℚ, t < r.length → (∀ row ∈ rs, t < row.length) →
    t < (rs.foldl (fun a b => List.zipWith (· + ·) a b) r).length := by
  induction rs with
  | nil => intro r hr _; simpa using hr
  | cons r₂ rs' ih =>
    intro r hr hrows
    simp only [List.foldl_cons]
    exact ih _ (by
        simp only [List.length_zipWith, lt_min_iff]
        exact ⟨hr, hrows r₂ (by simp)⟩)
      (fun row hrow => hrows row (by simp [hrow]))

theorem foldl_zipWith_getD (t : ℕ) (rs : List (List ℚ)) :
    ∀ r : List ℚ, t < r.length → (∀ row ∈ rs, t < row.length) →
    (rs.foldl (fun a b => List.zipWith (· + ·) a b) r).getD t 0 =
      r.getD t 0 + (rs.map (fun row => row.getD t 0)).sum := by
  induction rs with
  | nil => intro r _ _; simp
  | cons r₂ rs' ih =>
    intro r hr hrows
    have hr₂ : t < r₂.length := hrows r₂ (by simp)
    have hlen : t < (List.zipWith (· + ·) r r₂).length := by
      simp only [List.length_zipWith, lt_min_iff]
      exact ⟨hr, hr₂⟩
    simp only [List.foldl_cons, List.map_cons, List.sum_cons]
    rw [ih _ hlen (fun row hrow => hrows row (by simp [hrow])),
      zipWith_add_getD r r₂ t hr hr₂]
    ring

theorem getD_map_div (l : List ℚ) (c : ℚ) (t : ℕ) (h : t < l.length) :
    (l.map (fun x => x / c)).getD t 0 = l.getD t 0 / c := by
  rw [List.getD_eq_getElem?_getD, List.getD_eq_getElem?_getD,
    List.getElem?_map, List.getElem?_eq_getElem h]
  simp

/-- `colMeans` is the per-sample average across channels: entry `t` is the
sum over the rows (channels) of their sample at index `t`, divided by the
number of rows. -/
theorem colMeans_getD (M : Mat) (t : ℕ) (h : ∀ row ∈ M, t < row.length) :
    (colMeans M).getD t 0 =
      (M.map (fun row => row.getD t 0)).sum / (M.length : ℚ) := by
  cases M with
  | nil => simp [colMeans, sumRows]
  | cons r rs =>
    have hr : t < r.length := h r (by simp)
    have hrows : ∀ row ∈ rs, t < row.length :=
      fun row hrow => h row (by simp [hrow])
    have hlen : t < (sumRows (r :: rs)).length :=
      lt_length_foldl_zipWith t rs r hr hrows
    rw [colMeans, getD_map_div _ _ _ hlen]
    rw [show sumRows (r :: rs) = rs.foldl (fun a b => List.zipWith (· + ·) a b) r from rfl,
      foldl_zipWith_getD t rs r hr hrows]
    simp

theorem transposeMat_length (m : Mat) (T : ℕ) (hm : m ≠ [])
    (hrect : ∀ row ∈ m, row.length = T) :
    (transposeMat m).length = T := by
  cases m with
  | nil => exact absurd rfl hm
  | cons r rs =>
    simp [transposeMat, hrect r (by simp)]

theorem transposeMat_getD (m : Mat) (T c : ℕ) (hm : m ≠ [])
    (hrect : ∀ row ∈ m, row.length = T) (hc : c < T) :
    (transposeMat m).getD c [] = m.map (fun row => row.getD c 0) := by
  cases m with
  | nil => exact absurd rfl hm
  | cons r rs =>
    have hr : r.length = T := hrect r (by simp)
    rw [transposeMat, List.getD_eq_getElem?_getD, List.getElem?_map,
      List.getElem?_range (by rw [hr]; exact hc)]
    simp

theorem map_getD_entry (m : Mat) (c t : ℕ) (ht : t < m.length) :
    (m.map (fun row => row.getD c 0)).getD t 0 = (m.getD t []).getD c 0 := by
  simp [List.getD_eq_getElem?_getD, List.getElem?_eq_getElem, ht]

/-! ### Claim theorems -/

/-- C8: the schema selector is a pure function of the `archived` flag:
`archived = false` yields a single string field, `archived = true` yields a
two-field record with string field `path` and binary field `bytes`
(`Audio.__call__`, line 34-35). -/
theorem schema_selector_by_archived (sr : Option ℕ) (mono : Bool)
    (idv : Option String) :
    Audio.call ⟨sr, mono, false, idv⟩ = PAType.string ∧
    Audio.call ⟨sr, mono, true, idv⟩ =
      PAType.struct [("path", PAType.string), ("bytes", PAType.binary)] :=
  ⟨rfl, rfl⟩

/-- C4: a reference whose shape does not match the `archived` flag (a
path-with-bytes record when `archived = false`, a bare path when
`archived = true`) makes `decode_example` fail with the malformed-reference
error.  The statement quantifies over ALL backend records: the result does
not depend on any backend, so no decode backend is invoked. -/
theorem malformed_reference_before_backend (B : Backends) (sr : Option ℕ)
    (mono : Bool) (idv : Option String) (st : ResamplerState) (p : String)
    (bs : Bytes) :
    decodeExample B ⟨sr, mono, false, idv⟩ st (.pathWithBytes p bs) =
      .error .malformedReference ∧
    decodeExample B ⟨sr, mono, true, idv⟩ st (.pathOnly p) =
      .error .malformedReference :=
  ⟨rfl, rfl⟩

/-- C1: `decode_example` routes by path suffix: a path ending in the
case-sensitive suffix `.mp3` goes to the torchaudio helper in both storage
modes; otherwise the archived mode uses the soundfile helper on the byte
buffer and the non-archived mode uses the librosa helper on the path.  The
last two conjuncts record that the suffix test is case-sensitive. -/
theorem decode_example_routing (B : Backends) (sr : Option ℕ) (mono : Bool)
    (idv : Option String) (st : ResamplerState) (p : String) (bs : Bytes) :
    (decodeExample B ⟨sr, mono, true, idv⟩ st (.pathWithBytes p bs) =
      if strEndsWith p ".mp3" then
        (decodeTorchaudio B ⟨sr, mono, true, idv⟩ st (.buffer bs)).map
          (fun r => ((p, r.1.1, r.1.2), r.2))
      else
        (decodeSoundfile B ⟨sr, mono, true, idv⟩ bs).map
          (fun r => ((p, r.1, r.2), st))) ∧
    (decodeExample B ⟨sr, mono, false, idv⟩ st (.pathOnly p) =
      if strEndsWith p ".mp3" then
        (decodeTorchaudio B ⟨sr, mono, false, idv⟩ st (.path p)).map
          (fun r => ((p, r.1.1, r.1.2), r.2))
      else
        (decodeLibrosa B ⟨sr, mono, false, idv⟩ p).map
          (fun r => ((p, r.1, r.2), st))) ∧
    strEndsWith "x.MP3" ".mp3" = false ∧
    strEndsWith "x.mp3" ".mp3" = true :=
  ⟨rfl, rfl, by decide, by decide⟩

/-- C10: `decode_batch` of the empty sequence returns the empty mapping,
which is NOT the three-key mapping with empty value sequences: the
`defaultdict` only creates keys when the first item is decoded. -/
theorem decode_batch_empty (B : Backends) (self : Audio)
    (st : ResamplerState) :
    decodeBatch B self st [] = .ok [] ∧
    (Except.ok ([] : List (String × List Value)) :
        Except AudioError (List (String × List Value))) ≠
      .ok [("path", []), ("array", []), ("sampling_rate", [])] :=
  ⟨rfl, by decide⟩

/-- C2 is a code bug: the cached `self._resampler` is constructed from the
FIRST resampled call's native rate and reused verbatim for later calls
with different native rates (line 102-104 guards only on the existence of
the attribute, not on the rate pair).  With a target rate of 16000: the
first call decodes a 44100 Hz file and caches the `(44100, 16000)`
converter; a second call decoding a 22050 Hz file reuses that converter
(second conjunct), whereas the same call on a fresh instance builds and
applies the `(22050, 16000)` converter (third conjunct), and the two
outputs differ (fourth conjunct) - the cache is visible to callers. -/
theorem resampler_cache_not_invisible :
    decodeExample cacheBackends ⟨some 16000, false, true, none⟩ none
        (.pathWithBytes "a.mp3" [1]) =
      .ok (("a.mp3", .twoD [[44100]], 16000), some (44100, 16000)) ∧
    decodeExample cacheBackends ⟨some 16000, false, true, none⟩
        (some (44100, 16000)) (.pathWithBytes "b.mp3" [2]) =
      .ok (("b.mp3", .twoD [[44100]], 16000), some (44100, 16000)) ∧
    decodeExample cacheBackends ⟨some 16000, false, true, none⟩ none
        (.pathWithBytes "b.mp3" [2]) =
      .ok (("b.mp3", .twoD [[22050]], 16000), some (22050, 16000)) ∧
    Arr.twoD [[(44100 : ℚ)]] ≠ Arr.twoD [[22050]] := by
  refine ⟨?_, ?_, ?_, by decide⟩ <;> decide

/-- Backends for the equal-rate scenario: both loaders report native rate
8000. -/
def equalRateBackends : Backends :=
  { stubBackends with
    sfRead := fun _ => (.twoD [[1], [3]], 8000)
    torchLoad := fun _ => ([[2]], 8000) }

/-- C5: when the configured target rate equals the native rate, the guard
`if self.sampling_rate and self.sampling_rate != sampling_rate` is false in
both explicit-resampler branches: the decode equals the decode of a
configuration with no target rate at all, the returned rate is the native
rate, the samples are only transposed/downmixed (never resampled), and the
torchaudio branch neither constructs nor consults the cached resampler
(the state comes back unchanged). -/
theorem resample_skipped_when_rates_equal
    (B : Backends) (st : ResamplerState) (bs : Bytes) (v : PathOrBuffer)
    (a : Arr) (m : Mat) (r : ℕ) (mono arch : Bool) (idv : Option String)
    (hsf : B.sfRead bs = (a, r)) (htl : B.torchLoad v = (m, r))
    (hla : B.librosaAvailable = true) (hsfa : B.soundfileAvailable = true)
    (hta : B.torchaudioAvailable = true) (hsox : B.soxAvailable = true) :
    decodeSoundfile B ⟨some r, mono, arch, idv⟩ bs =
        decodeSoundfile B ⟨none, mono, arch, idv⟩ bs ∧
    decodeSoundfile B ⟨some r, mono, arch, idv⟩ bs =
        .ok ((if mono then toMono (transposeArr a) else transposeArr a), r) ∧
    decodeTorchaudio B ⟨some r, mono, arch, idv⟩ st v =
        decodeTorchaudio B ⟨none, mono, arch, idv⟩ st v ∧
    decodeTorchaudio B ⟨some r, mono, arch, idv⟩ st v =
        .ok (((if mono then Arr.oneD (colMeans m) else Arr.twoD m), r), st) := by
  refine ⟨?_, ?_, ?_, ?_⟩ <;>
    simp [decodeSoundfile, decodeTorchaudio, hsf, htl, hla, hsfa, hta, hsox]

/-- Witness for C5 at a concrete instance: native rate 8000 on both
loaders, target rate 8000, mono. -/
theorem resample_skipped_when_rates_equal_witness :
    decodeSoundfile equalRateBackends ⟨some 8000, true, true, none⟩ [] =
        decodeSoundfile equalRateBackends ⟨none, true, true, none⟩ [] ∧
    decodeSoundfile equalRateBackends ⟨some 8000, true, true, none⟩ [] =
        .ok ((if true then toMono (transposeArr (.twoD [[1], [3]]))
              else transposeArr (.twoD [[1], [3]])), 8000) ∧
    decodeTorchaudio equalRateBackends ⟨some 8000, true, true, none⟩ none
        (.path "a.mp3") =
      decodeTorchaudio equalRateBackends ⟨none, true, true, none⟩ none
        (.path "a.mp3") ∧
    decodeTorchaudio equalRateBackends ⟨some 8000, true, true, none⟩ none
        (.path "a.mp3") =
      .ok (((if true then Arr.oneD (colMeans [[2]]) else Arr.twoD [[2]]),
        8000), none) :=
  resample_skipped_when_rates_equal equalRateBackends none [] (.path "a.mp3")
    (.twoD [[1], [3]]) [[2]] 8000 true true none rfl rfl rfl rfl rfl rfl

/-- Counterexample to C7 as stated: the absence of the buffer-decoding
capability (soundfile) and the absence of the path-decoding capability
(librosa) surface as the SAME error - the `except` clause of lines 74-78
covers both imports with the message naming librosa (line 78, identical to
the message of line 67) - so the four capabilities do not each produce a
distinct error naming the missing capability. -/
theorem capability_errors_not_distinct :
    decodeExample { stubBackends with soundfileAvailable := false }
        ⟨none, true, true, none⟩ none (.pathWithBytes "a.wav" []) =
      .error .installLibrosa ∧
    decodeExample { stubBackends with librosaAvailable := false }
        ⟨none, true, false, none⟩ none (.pathOnly "a.wav") =
      .error .installLibrosa :=
  ⟨by decide, by decide⟩

/-- C7 amended: the MP3 capability's absence is reported distinctly - a
missing torchaudio import names torchaudio (in both storage modes), a
missing sox backend names sox, and both differ from the librosa error of
the general branches.  The general path and buffer capabilities are NOT
independently reported: a missing soundfile and a missing librosa both
surface as the error naming librosa. -/
theorem missing_capability_errors
    (B : Backends) (sr : Option ℕ) (mono : Bool) (idv : Option String)
    (st : ResamplerState) (p q : String) (bs : Bytes)
    (hp : strEndsWith p ".mp3" = true) (hq : strEndsWith q ".mp3" = false) :
    (decodeExample { B with torchaudioAvailable := false }
        ⟨sr, mono, true, idv⟩ st (.pathWithBytes p bs) =
      .error .installTorchaudio) ∧
    (decodeExample { B with torchaudioAvailable := false }
        ⟨sr, mono, false, idv⟩ st (.pathOnly p) =
      .error .installTorchaudio) ∧
    (decodeExample { B with torchaudioAvailable := true, soxAvailable := false }
        ⟨sr, mono, true, idv⟩ st (.pathWithBytes p bs) = .error .installSox) ∧
    (decodeExample { B with soundfileAvailable := false }
        ⟨sr, mono, true, idv⟩ st (.pathWithBytes q bs) =
      .error .installLibrosa) ∧
    (decodeExample { B with librosaAvailable := false }
        ⟨sr, mono, true, idv⟩ st (.pathWithBytes q bs) =
      .error .installLibrosa) ∧
    (decodeExample { B with librosaAvailable := false }
        ⟨sr, mono, false, idv⟩ st (.pathOnly q) = .error .installLibrosa) ∧
    AudioError.installTorchaudio ≠ AudioError.installLibrosa ∧
    AudioError.installSox ≠ AudioError.installLibrosa ∧
    AudioError.installTorchaudio ≠ AudioError.installSox := by
  refine ⟨?_, ?_, ?_, ?_, ?_, ?_, by decide, by decide, by decide⟩ <;>
    simp [decodeExample, decodeTorchaudio, decodeSoundfile, decodeLibrosa,
      hp, hq, Except.map]

/-- Witness for the amended C7 at a concrete instance. -/
theorem missing_capability_errors_witness :
    (decodeExample { stubBackends with torchaudioAvailable := false }
        ⟨none, true, true, none⟩ none (.pathWithBytes "a.mp3" []) =
      .error .installTorchaudio) ∧
    (decodeExample { stubBackends with torchaudioAvailable := false }
        ⟨none, true, false, none⟩ none (.pathOnly "a.mp3") =
      .error .installTorchaudio) ∧
    (decodeExample
        { stubBackends with torchaudioAvailable := true, soxAvailable := false }
        ⟨none, true, true, none⟩ none (.pathWithBytes "a.mp3" []) =
      .error .installSox) ∧
    (decodeExample { stubBackends with soundfileAvailable := false }
        ⟨none, true, true, none⟩ none (.pathWithBytes "a.wav" []) =
      .error .installLibrosa) ∧
    (decodeExample { stubBackends with librosaAvailable := false }
        ⟨none, true, true, none⟩ none (.pathWithBytes "a.wav" []) =
      .error .installLibrosa) ∧
    (decodeExample { stubBackends with librosaAvailable := false }
        ⟨none, true, false, none⟩ none (.pathOnly "a.wav") =
      .error .installLibrosa) ∧
    AudioError.installTorchaudio ≠ AudioError.installLibrosa ∧
    AudioError.installSox ≠ AudioError.installLibrosa ∧
    AudioError.installTorchaudio ≠ AudioError.installSox :=
  missing_capability_errors stubBackends none true none none "a.mp3" "a.wav"
    [] (by decide) (by decide)

/-- Counterexample to C3 as stated: the soundfile branch applies the mono
downmix BEFORE the resampling step (lines 82-85 run `to_mono` first), not
after.  With a squaring resampling kernel on the 2-channel frame `[0, 2]`
the code produces the sample `((0+2)/2)^2 = 1`, while the order the claim
asserts produces `(0^2+2^2)/2 = 2`. -/
theorem mono_before_resample_in_soundfile_branch :
    decodeSoundfile monoOrderBackends ⟨some 16000, true, true, none⟩ [] =
      .ok (.oneD [1], 16000) ∧
    decodeSoundfileMonoAfterResample monoOrderBackends
        ⟨some 16000, true, true, none⟩ [] =
      .ok (.oneD [2], 16000) ∧
    Arr.oneD [(1 : ℚ)] ≠ Arr.oneD [2] := by
  refine ⟨?_, ?_, by decide⟩ <;>
    norm_num [decodeSoundfile, decodeSoundfileMonoAfterResample,
      monoOrderBackends, transposeArr, transposeMat, toMono, colMeans,
      sumRows, liftResample, List.range_succ]

/-- C3 amended: with `mono = true` every branch returns a 1-D array of
per-sample channel averages of the signal it downmixes, but the branches
disagree on the order of the two post-processing steps: the torchaudio
branch downmixes AFTER resampling (the output is the column mean of the
resampled matrix, conjuncts 1-2), while the soundfile branch downmixes
BEFORE resampling (the resampling kernel is applied to the already
downmixed 1-D array, conjuncts 3-4).  Conjuncts 5-6 state that the
downmix is the per-sample average across channels: entry `tIdx` of the
column mean is the sum over channels at that index divided by the channel
count. -/
theorem mono_downmix_amended
    (B : Backends) (st : ResamplerState) (v : PathOrBuffer) (bs : Bytes)
    (arch : Bool) (idv : Option String) (m m₂ : Mat)
    (nr nr₂ t T T₂ tIdx tIdx₂ : ℕ)
    (htl : B.torchLoad v = (m, nr)) (hsf : B.sfRead bs = (.twoD m₂, nr₂))
    (hta : B.torchaudioAvailable = true) (hsox : B.soxAvailable = true)
    (hla : B.librosaAvailable = true) (hsfa : B.soundfileAvailable = true)
    (ht0 : t ≠ 0) (hne : t ≠ nr) (hne₂ : t ≠ nr₂)
    (hrect : ∀ row ∈ m, row.length = T) (hti : tIdx < T)
    (hrect₂ : ∀ row ∈ transposeMat m₂, row.length = T₂) (hti₂ : tIdx₂ < T₂) :
    (decodeTorchaudio B ⟨none, true, arch, idv⟩ st v =
      .ok ((.oneD (colMeans m), nr), st)) ∧
    (decodeTorchaudio B ⟨some t, true, arch, idv⟩ none v =
      .ok ((.oneD (colMeans (applyResampler B.resample (nr, t) m)), t),
        some (nr, t))) ∧
    (decodeSoundfile B ⟨none, true, arch, idv⟩ bs =
      .ok (.oneD (colMeans (transposeMat m₂)), nr₂)) ∧
    (decodeSoundfile B ⟨some t, true, arch, idv⟩ bs =
      .ok (.oneD (B.resample nr₂ t (colMeans (transposeMat m₂))), t)) ∧
    ((colMeans m).getD tIdx 0 =
      (m.map (fun row => row.getD tIdx 0)).sum / (m.length : ℚ)) ∧
    ((colMeans (transposeMat m₂)).getD tIdx₂ 0 =
      ((transposeMat m₂).map (fun row => row.getD tIdx₂ 0)).sum /
        ((transposeMat m₂).length : ℚ)) := by
  refine ⟨?_, ?_, ?_, ?_, ?_, ?_⟩
  · simp [decodeTorchaudio, htl, hta, hsox]
  · simp [decodeTorchaudio, htl, hta, hsox, ht0, hne]
  · simp [decodeSoundfile, hsf, hla, hsfa, transposeArr, toMono]
  · simp [decodeSoundfile, hsf, hla, hsfa, transposeArr, toMono, ht0, hne₂,
      liftResample]
  · exact colMeans_getD m tIdx
      (fun row hrow => by rw [hrect row hrow]; exact hti)
  · exact colMeans_getD (transposeMat m₂) tIdx₂
      (fun row hrow => by rw [hrect₂ row hrow]; exact hti₂)

/-- Witness for the amended C3 at a concrete instance: a one-channel
44100 Hz torch matrix `[[1]]`, a one-frame two-channel 44100 Hz soundfile
matrix `[[0, 2]]`, target rate 16000. -/
theorem mono_downmix_amended_witness :
    (decodeTorchaudio monoOrderBackends ⟨none, true, true, none⟩ none
        (.path "a.mp3") = .ok ((.oneD (colMeans [[1]]), 44100), none)) ∧
    (decodeTorchaudio monoOrderBackends ⟨some 16000, true, true, none⟩ none
        (.path "a.mp3") =
      .ok ((.oneD (colMeans (applyResampler monoOrderBackends.resample
        (44100, 16000) [[1]])), 16000), some (44100, 16000))) ∧
    (decodeSoundfile monoOrderBackends ⟨none, true, true, none⟩ [] =
      .ok (.oneD (colMeans (transposeMat [[0, 2]])), 44100)) ∧
    (decodeSoundfile monoOrderBackends ⟨some 16000, true, true, none⟩ [] =
      .ok (.oneD (monoOrderBackends.resample 44100 16000
        (colMeans (transposeMat [[0, 2]]))), 16000)) ∧
    ((colMeans [[1]]).getD 0 0 =
      (([[1]] : Mat).map (fun row => row.getD 0 0)).sum /
        (([[1]] : Mat).length : ℚ)) ∧
    ((colMeans (transposeMat [[0, 2]])).getD 0 0 =
      ((transposeMat ([[0, 2]] : Mat)).map (fun row => row.getD 0 0)).sum /
        ((transposeMat ([[0, 2]] : Mat)).length : ℚ)) :=
  mono_downmix_amended monoOrderBackends none (.path "a.mp3") [] true none
    [[1]] [[0, 2]] 44100 44100 16000 1 1 0 0 rfl rfl rfl rfl rfl rfl
    (by decide) (by decide) (by decide) (by decide) (by decide)
    (by decide) (by decide)

/-- C9: for an archived non-mp3 reference the dispatcher decode equals the
post-processing pipeline (`sfPost`: mono downmix, then resampling) applied
to the TRANSPOSED `sf.read` output, and the transpose turns the
channel-last raw matrix into the channel-major one: `T` raw columns become
`T` rows of length equal to the raw frame count, with entry `(c, t)` of
the transpose equal to entry `(t, c)` of the raw matrix. -/
theorem soundfile_transposes_to_channel_major
    (B : Backends) (bs : Bytes) (m : Mat) (nr T c t : ℕ) (sr : Option ℕ)
    (mono arch : Bool) (idv : Option String)
    (hsf : B.sfRead bs = (.twoD m, nr))
    (hla : B.librosaAvailable = true) (hsfa : B.soundfileAvailable = true)
    (hm : m ≠ []) (hrect : ∀ row ∈ m, row.length = T)
    (hc : c < T) (ht : t < m.length) :
    decodeSoundfile B ⟨sr, mono, arch, idv⟩ bs =
      sfPost B ⟨sr, mono, arch, idv⟩ (.twoD (transposeMat m)) nr ∧
    (transposeMat m).length = T ∧
    ((transposeMat m).getD c []).length = m.length ∧
    ((transposeMat m).getD c []).getD t 0 = (m.getD t []).getD c 0 := by
  refine ⟨?_, transposeMat_length m T hm hrect, ?_, ?_⟩
  · simp [decodeSoundfile, sfPost, hsf, hla, hsfa, transposeArr]
  · rw [transposeMat_getD m T c hm hrect hc]
    simp
  · rw [transposeMat_getD m T c hm hrect hc]
    exact map_getD_entry m c t ht

/-- Witness for C9 at a concrete instance: the raw channel-last matrix
`[[0, 2]]` (one frame, two channels) becomes the channel-major
`[[0], [2]]`. -/
theorem soundfile_transposes_to_channel_major_witness :
    decodeSoundfile monoOrderBackends ⟨none, false, true, none⟩ [] =
      sfPost monoOrderBackends ⟨none, false, true, none⟩
        (.twoD (transposeMat [[0, 2]])) 44100 ∧
    (transposeMat ([[0, 2]] : Mat)).length = 2 ∧
    ((transposeMat ([[0, 2]] : Mat)).getD 1 []).length = 1 ∧
    ((transposeMat ([[0, 2]] : Mat)).getD 1 []).getD 0 0 =
      (([[0, 2]] : Mat).getD 0 []).getD 1 0 :=
  soundfile_transposes_to_channel_major monoOrderBackends [] [[0, 2]] 44100
    2 1 0 none false true none rfl rfl rfl (by decide) (by decide)
    (by decide) (by decide)

theorem appendItems_threeKeys (ps l₂ l₃ : List Value) (d : String × Arr × ℕ) :
    appendItems [("path", ps), ("array", l₂), ("sampling_rate", l₃)] d =
      [("path", ps ++ [Value.str d.1]), ("array", l₂ ++ [Value.arr d.2.1]),
       ("sampling_rate", l₃ ++ [Value.nat d.2.2])] := by
  simp [appendItems, appendKV]

theorem decodeBatchAux_threeKeys (B : Backends) (self : Audio)
    (vs : List StoredRef) :
    ∀ (st : ResamplerState) (ds : List (String × Arr × ℕ))
      (stf : ResamplerState) (ps l₂ l₃ : List Value),
      decodeExamples B self st vs = .ok (ds, stf) →
      decodeBatchAux B self st
          [("path", ps), ("array", l₂), ("sampling_rate", l₃)] vs =
        .ok [("path", ps ++ ds.map (fun d => Value.str d.1)),
             ("array", l₂ ++ ds.map (fun d => Value.arr d.2.1)),
             ("sampling_rate", l₃ ++ ds.map (fun d => Value.nat d.2.2))] := by
  induction vs with
  | nil =>
    intro st ds stf ps l₂ l₃ h
    simp only [decodeExamples, Except.ok.injEq, Prod.mk.injEq] at h
    obtain ⟨h1, h2⟩ := h
    subst h1
    simp [decodeBatchAux]
  | cons v vs ih =>
    intro st ds stf ps l₂ l₃ h
    simp only [decodeExamples] at h
    cases hd : decodeExample B self st v with
    | error e => rw [hd] at h; simp at h
    | ok r =>
      obtain ⟨d, st'⟩ := r
      simp only [hd] at h
      cases he : decodeExamples B self st' vs with
      | error e => rw [he] at h; simp [Except.map] at h
      | ok r2 =>
        obtain ⟨ds', stf'⟩ := r2
        rw [he] at h
        simp only [Except.map, Except.ok.injEq, Prod.mk.injEq] at h
        obtain ⟨h1, h2⟩ := h
        subst h1
        simp only [decodeBatchAux, hd]
        rw [appendItems_threeKeys,
          ih st' ds' stf' (ps ++ [Value.str d.1]) (l₂ ++ [Value.arr d.2.1])
            (l₃ ++ [Value.nat d.2.2]) he]
        simp

/-- C6 amended: for every NONEMPTY sequence of references whose items all
decode successfully (with the `_resampler` state threaded from item to
item, exactly as the batch loop does), `decode_batch` returns the mapping
with the keys `path`, `array`, `sampling_rate` in that insertion order,
each value the sequence of the corresponding per-item results in input
order.  (For the empty sequence the mapping has no keys at all - see the
counterexample.) -/
theorem decode_batch_columns (B : Backends) (self : Audio)
    (st : ResamplerState) (v : StoredRef) (vs : List StoredRef)
    (ds : List (String × Arr × ℕ)) (stf : ResamplerState)
    (h : decodeExamples B self st (v :: vs) = .ok (ds, stf)) :
    decodeBatch B self st (v :: vs) =
      .ok [("path", ds.map (fun d => Value.str d.1)),
           ("array", ds.map (fun d => Value.arr d.2.1)),
           ("sampling_rate", ds.map (fun d => Value.nat d.2.2))] := by
  rw [decodeBatch]
  simp only [decodeExamples] at h
  cases hd : decodeExample B self st v with
  | error e => rw [hd] at h; simp at h
  | ok r =>
    obtain ⟨d, st'⟩ := r
    simp only [hd] at h
    cases he : decodeExamples B self st' vs with
    | error e => rw [he] at h; simp [Except.map] at h
    | ok r2 =>
      obtain ⟨ds', stf'⟩ := r2
      rw [he] at h
      simp only [Except.map, Except.ok.injEq, Prod.mk.injEq] at h
      obtain ⟨h1, h2⟩ := h
      subst h1
      simp only [decodeBatchAux, hd]
      have happ : appendItems [] d =
          [("path", [Value.str d.1]), ("array", [Value.arr d.2.1]),
           ("sampling_rate", [Value.nat d.2.2])] := by
        simp [appendItems, appendKV]
      rw [happ, decodeBatchAux_threeKeys B self vs st' ds' stf' _ _ _ he]
      simp

/-- Witness for the amended C6: a concrete two-item batch. -/
theorem decode_batch_columns_witness :
    decodeBatch stubBackends ⟨none, true, true, none⟩ none
        [.pathWithBytes "a.wav" [], .pathWithBytes "b.wav" []] =
      .ok [("path", [Value.str "a.wav", Value.str "b.wav"]),
           ("array", [Value.arr (.oneD []), Value.arr (.oneD [])]),
           ("sampling_rate", [Value.nat 1, Value.nat 1])] :=
  decode_batch_columns stubBackends ⟨none, true, true, none⟩ none
    (.pathWithBytes "a.wav" []) [.pathWithBytes "b.wav" []]
    [("a.wav", .oneD [], 1), ("b.wav", .oneD [], 1)] none (by decide)

/-- Counterexample to C6 as stated: on the EMPTY input sequence
`decode_batch` returns the empty mapping, not the mapping from the three
keys to empty sequences that the universally quantified claim predicts. -/
theorem decode_batch_empty_has_no_keys :
    decodeBatch stubBackends ⟨none, true, true, none⟩ none [] = .ok [] ∧
    (Except.ok ([] : List (String × List Value)) :
        Except AudioError (List (String × List Value))) ≠
      .ok [("path", []), ("array", []), ("sampling_rate", [])] :=
  ⟨rfl, by decide⟩

end DatasetsAudio
